import Mathlib

/-!
Shallow embedding of the faceRecog attendance backend.

The embedding follows `backend/face_service.py` (class `FaceService`:
`register_student`, `verify_face`, `mark_attendance`, `cosine_distance`) and
`backend/database.py` (class `MongoDB`: `add_student`, `get_student_by_id`,
`get_all_embeddings`, `record_attendance`, `update_student_embeddings`).

Modelling conventions:
  * numpy float64 values are modelled by exact rationals `ℚ`; a face embedding
    (np.ndarray) is a `List ℚ`;
  * Python dicts returned by the service are modelled by a structure whose
    fields are `Option`-valued: `none` stands for an absent key;
  * the MongoDB `students` and `attendance` collections are modelled as lists
    of documents, insertion order preserved; `insert_one` appends and returns
    the string id (modelled as the index at insertion time);
  * the embedding extractor (`DeepFace.represent` inside `generate_embedding`)
    is an opaque external model, passed in as an oracle
    `extract : String → Except String Emb`; an `Except.error` is the exception
    `generate_embedding` raises for that image;
  * `verify_face` and `mark_attendance` call `self.cosine_distance`; the
    distance function is passed as a parameter `dist : Emb → Emb → ℚ` because
    the numeric value of the cosine distance involves a square root.  The
    definitions `dot`, `normSq`, `cosineDivisorSq` below embed the arithmetic
    of `cosine_distance` itself (line 276 of face_service.py) for the
    zero-norm analysis;
  * Python raising an exception that the enclosing `try` of the service method
    catches is modelled by the method returning the corresponding
    `success = false` dictionary, as the `except` clauses do.
-/

namespace FaceRecog

/-- Face embedding: a fixed-length numeric vector (np.ndarray of float64 in
the source), modelled with exact rationals. -/
abbrev Emb := List ℚ

/-- Student document as created by `MongoDB.add_student` and returned by
`MongoDB._deserialize_student`. -/
structure Student where
  name : String
  student_id : String
  embeddings : List Emb
  image_count : Nat
  image_paths : List String
  is_active : Bool
deriving DecidableEq

/-- Match candidate dictionary built inside `FaceService.verify_face`
(`student_id`, `name`, `distance`). -/
structure MatchInfo where
  student_id : String
  name : String
  distance : ℚ
deriving DecidableEq

/-- Attendance document built by `MongoDB.record_attendance`. -/
structure AttRecord where
  student_id : String
  check_in : Option String
  date : Option String
  image_path : Option String
  verified : Bool
deriving DecidableEq

/-- Result dictionary returned by the `FaceService` methods.  The Python code
returns plain dicts whose key sets differ per branch; this structure is the
union of all keys, with `none` standing for an absent key.  The key
`"student"` holds a full match-candidate dict in `verify_face` results
(`student`) and only an id/name pair in `mark_attendance` results
(`student_brief`). -/
structure ResultDict where
  success : Bool
  matched : Option Bool := none
  error : Option String := none
  student : Option MatchInfo := none
  best_match : Option (Option MatchInfo) := none
  confidence : Option ℚ := none
  distance : Option ℚ := none
  all_matches : Option (List MatchInfo) := none
  message : Option String := none
  student_id : Option String := none
  name : Option String := none
  db_id : Option String := none
  total_images : Option Nat := none
  successful_embeddings : Option Nat := none
  failed_images : Option (List (String × String)) := none
  attendance_marked : Option Bool := none
  attendance_id : Option String := none
  student_brief : Option (String × String) := none
deriving DecidableEq

/-! ## database.py -/

/-- `MongoDB.get_student_by_id`: `find_one({"student_id": student_id})` —
note: no `is_active` filter, so soft-deleted students are found too. -/
def get_student_by_id (store : List Student) (student_id : String) : Option Student :=
  store.find? (fun s => s.student_id == student_id)

/-- `MongoDB.add_student`: inserts a new document with `is_active = True` and
`image_count = len(embeddings)`; returns the inserted id. -/
def add_student (store : List Student) (name student_id : String)
    (embeddings : List Emb) (image_paths : List String) : String × List Student :=
  (toString store.length,
   store ++ [{ name := name, student_id := student_id, embeddings := embeddings,
               image_count := embeddings.length, image_paths := image_paths,
               is_active := true }])

/-- `MongoDB.get_all_embeddings`: all documents with `is_active = True`
(in collection order). -/
def get_all_embeddings (store : List Student) : List Student :=
  store.filter (fun s => s.is_active)

/-- `MongoDB.record_attendance`: builds the attendance document (the `date`
field is the part of `check_in_time` before the first `"T"` when a time is
given) and inserts it, returning the inserted id. -/
def record_attendance (att : List AttRecord) (student_id : String)
    (check_in_time : Option String) (image_path : Option String) :
    String × List AttRecord :=
  (toString att.length,
   att ++ [{ student_id := student_id, check_in := check_in_time,
             date := check_in_time.map (fun t => (t.splitOn "T").headD ""),
             image_path := image_path, verified := true }])

/-- Mongo `update_one` updates the first document matching the filter; the
`student_id` field carries a unique index, so at most one document matches. -/
def updateFirst (student_id : String) (f : Student → Student) :
    List Student → List Student
  | [] => []
  | s :: rest =>
    if s.student_id == student_id then f s :: rest
    else s :: updateFirst student_id f rest

/-- `MongoDB.update_student_embeddings`: reads the current document, appends
the new embeddings and image paths, and writes the combined lists back with
`$set`; returns `modified_count > 0`, i.e. whether the written document
differs from the stored one. -/
def update_student_embeddings (store : List Student) (student_id : String)
    (new_embeddings : List Emb) (new_image_paths : List String) :
    Bool × List Student :=
  match store.find? (fun s => s.student_id == student_id) with
  | none => (false, store)
  | some cur =>
    let all_embeddings := cur.embeddings ++ new_embeddings
    let upd : Student :=
      { cur with embeddings := all_embeddings,
                 image_count := all_embeddings.length,
                 image_paths := cur.image_paths ++ new_image_paths }
    (decide (upd ≠ cur), updateFirst student_id (fun _ => upd) store)

/-! ## face_service.py -/

/-- Default `FaceService.confidence_threshold` set in `__init__` (0.6). -/
def confidence_threshold : ℚ := mkRat 3 5

/-- The per-image loop of `FaceService.register_student` (lines 96-107): each
image is attempted; successes are collected in order, failures are collected
in order with their causes; a failure never aborts the remaining images. -/
def processImages (extract : String → Except String Emb) :
    List String → List Emb × List (String × String)
  | [] => ([], [])
  | p :: rest =>
    match extract p with
    | .ok emb =>
      let r := processImages extract rest
      (emb :: r.1, r.2)
    | .error msg =>
      let r := processImages extract rest
      (r.1, (p, msg) :: r.2)

/-- `FaceService.register_student`.  Validation, duplicate check, per-image
extraction with failure accumulation, minimum-of-3 gate, then
`db.add_student` with the successful embeddings and all submitted paths.
Returns the result dict and the resulting students collection. -/
def register_student (extract : String → Except String Emb)
    (store : List Student) (name student_id : String)
    (image_paths : List String) : ResultDict × List Student :=
  if name = "" ∨ student_id = "" then
    ({ success := false, error := some "Name and student ID are required" }, store)
  else if image_paths = [] then
    ({ success := false, error := some "At least one image is required" }, store)
  else
    match get_student_by_id store student_id with
    | some _ =>
      ({ success := false,
         error := some ("Student ID " ++ student_id ++ " already exists") }, store)
    | none =>
      let se := processImages extract image_paths
      if se.1.length < 3 then
        ({ success := false,
           error := some ("Only " ++ toString se.1.length ++
             " images processed successfully. Need at least 3."),
           failed_images := some se.2 }, store)
      else
        let added := add_student store name student_id se.1 image_paths
        ({ success := true,
           student_id := some student_id,
           name := some name,
           db_id := some added.1,
           total_images := some image_paths.length,
           successful_embeddings := some se.1.length,
           failed_images := some se.2,
           message := some ("Student registered with " ++ toString se.1.length ++
             " face embeddings") }, added.2)

/-- Python's `min` over a list of floats: raises `ValueError` on the empty
list (verify_face line 176 calls it on the per-student distance list). -/
def listMin : List ℚ → Except String ℚ
  | [] => .error "min() arg is an empty sequence"
  | d :: ds => .ok (ds.foldl min d)

/-- Total version of `listMin` for stating properties; only meaningful on
nonempty lists (where it agrees with `listMin`). -/
def listMinD : List ℚ → ℚ
  | [] => 0
  | d :: ds => ds.foldl min d

/-- Aggregate distance of a probe to a student: the minimum of the distances
to the student's stored embeddings (meaningful when the student has at least
one embedding). -/
def aggDist (dist : Emb → Emb → ℚ) (e : Emb) (s : Student) : ℚ :=
  listMinD (s.embeddings.map (dist e))

/-- The match-candidate dict `verify_face` appends to `all_distances` for one
student. -/
def candOf (dist : Emb → Emb → ℚ) (e : Emb) (s : Student) : MatchInfo :=
  { student_id := s.student_id, name := s.name, distance := aggDist dist e s }

/-- One update of the running best in `verify_face` (lines 183-189): the best
starts as `None`/infinite distance, and is replaced only on strict `<`. -/
def betterOf : Option MatchInfo → MatchInfo → Option MatchInfo
  | none, c => some c
  | some b, c => if c.distance < b.distance then some c else some b

/-- The running-best fold of `verify_face` over a list of candidates. -/
def runBest (best : Option MatchInfo) (cands : List MatchInfo) : Option MatchInfo :=
  cands.foldl betterOf best

/-- The student loop of `verify_face` (lines 167-189): per student, the
distance list to all stored embeddings is reduced by `min` (raising on an
empty embedding list), the candidate is appended to `all_distances`, and the
running best is updated on strict `<`. -/
def verifyLoop (dist : Emb → Emb → ℚ) (e : Emb) :
    List Student → Option MatchInfo → List MatchInfo →
    Except String (Option MatchInfo × List MatchInfo)
  | [], best, acc => .ok (best, acc.reverse)
  | s :: rest, best, acc =>
    match listMin (s.embeddings.map (dist e)) with
    | .error msg => .error msg
    | .ok m =>
      verifyLoop dist e rest (betterOf best ⟨s.student_id, s.name, m⟩)
        (⟨s.student_id, s.name, m⟩ :: acc)

/-- Stable insertion into an ascending-by-distance list: a new element goes
after all elements of smaller or equal distance. -/
def insertSorted (c : MatchInfo) : List MatchInfo → List MatchInfo
  | [] => [c]
  | d :: ds => if d.distance ≤ c.distance then d :: insertSorted c ds else c :: d :: ds

/-- Python's stable `sorted(all_distances, key=lambda x: x['distance'])`. -/
def sortByDistance (l : List MatchInfo) : List MatchInfo :=
  l.foldl (fun acc c => insertSorted c acc) []

/-- `FaceService.verify_face`.  Parameters: the distance function (the source
uses `self.cosine_distance`), the threshold (`self.confidence_threshold`),
the extraction outcome for the probe image (`generate_embedding` result), and
the students collection.  An extraction exception or a `min()` of an empty
per-student distance list is caught by the enclosing `try` and yields the
`success = false` dict.  In the `best_match is None` branch (unreachable when
the active list is nonempty, as every rational distance beats the `inf`
start) the Python values `inf`/`-inf` for distance/confidence are modelled by
the keys being absent. -/
def verify_face (dist : Emb → Emb → ℚ) (threshold : ℚ)
    (extractRes : Except String Emb) (store : List Student) : ResultDict :=
  match extractRes with
  | .error e => { success := false, error := some e }
  | .ok input =>
    let all_students := get_all_embeddings store
    if all_students.isEmpty then
      { success := true, matched := some false,
        error := some "No students registered in the system" }
    else
      match verifyLoop dist input all_students none [] with
      | .error msg => { success := false, error := some msg }
      | .ok (best, all_distances) =>
        let ranked := (sortByDistance all_distances).take 5
        match best with
        | some b =>
          if b.distance ≤ threshold then
            { success := true, matched := some true, student := some b,
              confidence := some (1 - b.distance), distance := some b.distance,
              all_matches := some ranked }
          else
            { success := true, matched := some false, best_match := some (some b),
              confidence := some (1 - b.distance), distance := some b.distance,
              all_matches := some ranked,
              message := some "No confident match found" }
        | none =>
          { success := true, matched := some false, best_match := some none,
            all_matches := some ranked,
            message := some "No confident match found" }

/-- The best-match candidate carried by a `verify_face` result: the
`"student"` key of a matched result, or the `"best_match"` key of a
not-matched result. -/
def bestOf (r : ResultDict) : Option MatchInfo :=
  match r.student with
  | some b => some b
  | none => r.best_match.getD none

/-- `FaceService.mark_attendance`.  Runs `verify_face`; a non-success verify
result is returned as is; on a match the attendance record is inserted
(`insertOk` is the persistence oracle: `false` means `db.record_attendance`
raises with message `insertErr`, which the enclosing `except` turns into a
`success = false` dict, leaving the attendance collection unchanged); on a
no-match nothing is persisted. -/
def mark_attendance (dist : Emb → Emb → ℚ) (threshold : ℚ)
    (extractRes : Except String Emb) (store : List Student)
    (insertOk : Bool) (insertErr : String)
    (timestamp image_path : Option String) (att : List AttRecord) :
    ResultDict × List AttRecord :=
  let vr := verify_face dist threshold extractRes store
  if vr.success = false then (vr, att)
  else if vr.matched = some true then
    match vr.student with
    | some st =>
      if insertOk then
        let ins := record_attendance att st.student_id timestamp image_path
        ({ success := true, attendance_marked := some true,
           attendance_id := some ins.1,
           student_brief := some (st.student_id, st.name),
           confidence := vr.confidence,
           message := some ("Attendance marked for " ++ st.name) }, ins.2)
      else ({ success := false, error := some insertErr }, att)
    | none =>
      ({ success := false, error := some "KeyError: student" }, att)
  else
    ({ success := true, attendance_marked := some false,
       best_match := some (vr.best_match.getD none),
       confidence := vr.confidence,
       all_matches := some (vr.all_matches.getD []),
       message := some "No matching student found with sufficient confidence" }, att)

/-! ## cosine_distance arithmetic (face_service.py line 276)

`cosine_distance` returns `1 - np.dot(e1, e2) / (np.linalg.norm(e1) *
np.linalg.norm(e2))` with no guard on the divisor.  `np.linalg.norm v` is the
square root of `normSq v`, so the divisor vanishes exactly when
`normSq e1 * normSq e2 = 0`; in that case numpy performs the division by zero
silently (producing `nan` for `0.0/0.0`, `±inf` otherwise, with at most a
RuntimeWarning). -/

/-- `np.dot` of two vectors. -/
def dot (a b : List ℚ) : ℚ := (List.zipWith (fun x y => x * y) a b).sum

/-- Sum of squares of a vector; `np.linalg.norm v` is its square root, so the
norm vanishes iff `normSq` does. -/
def normSq (v : List ℚ) : ℚ := (v.map (fun x => x * x)).sum

/-- Square of the divisor of the division performed by `cosine_distance`:
the division is by `‖e1‖ * ‖e2‖`, which is zero iff this quantity is zero.
The source performs the division unconditionally. -/
def cosineDivisorSq (a b : List ℚ) : ℚ := normSq a * normSq b

/-! ## Helper lemmas -/

lemma listMin_map_ok (dist : Emb → Emb → ℚ) (e : Emb) (s : Student)
    (h : s.embeddings ≠ []) :
    listMin (s.embeddings.map (dist e)) = .ok (aggDist dist e s) := by
  cases hE : s.embeddings with
  | nil => exact absurd hE h
  | cons x xs => simp [listMin, aggDist, listMinD, hE]

lemma verifyLoop_ok (dist : Emb → Emb → ℚ) (e : Emb) :
    ∀ (l : List Student) (best : Option MatchInfo) (acc : List MatchInfo),
      (∀ s ∈ l, s.embeddings ≠ []) →
      verifyLoop dist e l best acc =
        .ok (runBest best (l.map (candOf dist e)),
             acc.reverse ++ l.map (candOf dist e)) := by
  intro l
  induction l with
  | nil => intro best acc _; simp [verifyLoop, runBest]
  | cons s rest ih =>
    intro best acc h
    have hs : s.embeddings ≠ [] := h s (List.mem_cons_self s rest)
    have hrest : ∀ t ∈ rest, t.embeddings ≠ [] :=
      fun t ht => h t (List.mem_cons_of_mem s ht)
    rw [verifyLoop, listMin_map_ok dist e s hs]
    show verifyLoop dist e rest (betterOf best (candOf dist e s))
        (candOf dist e s :: acc) = _
    rw [ih (betterOf best (candOf dist e s)) (candOf dist e s :: acc) hrest]
    simp [runBest, List.foldl]

lemma verifyLoop_err (dist : Emb → Emb → ℚ) (e : Emb) :
    ∀ (l : List Student) (best : Option MatchInfo) (acc : List MatchInfo),
      (∃ s ∈ l, s.embeddings = []) →
      verifyLoop dist e l best acc = .error "min() arg is an empty sequence" := by
  intro l
  induction l with
  | nil => rintro best acc ⟨s, hs, _⟩; cases hs
  | cons s rest ih =>
    rintro best acc ⟨t, ht, hte⟩
    by_cases hs : s.embeddings = []
    · rw [verifyLoop]
      simp [hs, listMin]
    · rcases List.mem_cons.mp ht with rfl | htrest
      · exact absurd hte hs
      · rw [verifyLoop, listMin_map_ok dist e s hs]
        exact ih _ _ ⟨t, htrest, hte⟩

lemma runBest_some_spec :
    ∀ (cs : List MatchInfo) (b : MatchInfo),
      ∃ r, runBest (some b) cs = some r ∧
        ((r = b ∧ ∀ c ∈ cs, b.distance ≤ c.distance) ∨
         (∃ i, ∃ h : i < cs.length, r = cs.get ⟨i, h⟩ ∧ r.distance < b.distance ∧
            (∀ c ∈ cs, r.distance ≤ c.distance) ∧
            (∀ c ∈ cs.take i, r.distance < c.distance))) := by
  intro cs
  induction cs with
  | nil => intro b; exact ⟨b, rfl, Or.inl ⟨rfl, by simp⟩⟩
  | cons c cs ih =>
    intro b
    by_cases hc : c.distance < b.distance
    · obtain ⟨r, hr, hspec⟩ := ih c
      refine ⟨r, ?_, ?_⟩
      · simpa [runBest, List.foldl, betterOf, hc] using hr
      · rcases hspec with ⟨rfl, hmin⟩ | ⟨i, hi, hget, hlt, hmin, hfirst⟩
        · refine Or.inr ⟨0, by simp, by simp, hc, ?_, by simp⟩
          intro x hx
          rcases List.mem_cons.mp hx with rfl | hx
          · exact le_refl _
          · exact hmin x hx
        · refine Or.inr ⟨i + 1, by simpa using Nat.succ_lt_succ hi, by simpa using hget,
            lt_trans hlt hc, ?_, ?_⟩
          · intro x hx
            rcases List.mem_cons.mp hx with rfl | hx
            · exact le_of_lt hlt
            · exact hmin x hx
          · intro x hx
            rw [List.take_succ_cons] at hx
            rcases List.mem_cons.mp hx with rfl | hx
            · exact hlt
            · exact hfirst x hx
    · obtain ⟨r, hr, hspec⟩ := ih b
      have hbc : b.distance ≤ c.distance := not_lt.mp hc
      refine ⟨r, ?_, ?_⟩
      · simpa [runBest, List.foldl, betterOf, hc] using hr
      · rcases hspec with ⟨rfl, hmin⟩ | ⟨i, hi, hget, hlt, hmin, hfirst⟩
        · refine Or.inl ⟨rfl, ?_⟩
          intro x hx
          rcases List.mem_cons.mp hx with rfl | hx
          · exact hbc
          · exact hmin x hx
        · refine Or.inr ⟨i + 1, by simpa using Nat.succ_lt_succ hi, by simpa using hget,
            hlt, ?_, ?_⟩
          · intro x hx
            rcases List.mem_cons.mp hx with rfl | hx
            · exact le_of_lt (lt_of_lt_of_le hlt hbc)
            · exact hmin x hx
          · intro x hx
            rw [List.take_succ_cons] at hx
            rcases List.mem_cons.mp hx with rfl | hx
            · exact lt_of_lt_of_le hlt hbc
            · exact hfirst x hx

lemma processImages_spec (extract : String → Except String Emb) :
    ∀ paths : List String,
      processImages extract paths =
        (paths.filterMap (fun p => (extract p).toOption),
         paths.filterMap (fun p =>
            match extract p with
            | .ok _ => none
            | .error msg => some (p, msg))) := by
  intro paths
  induction paths with
  | nil => rfl
  | cons p rest ih =>
    cases hp : extract p with
    | ok emb => simp [processImages, hp, List.filterMap_cons, ih, Except.toOption]
    | error msg => simp [processImages, hp, List.filterMap_cons, ih, Except.toOption]

lemma find_update_decomp (student_id : String) (f : Student → Student) :
    ∀ (l : List Student) (s₀ : Student),
      l.find? (fun s => s.student_id == student_id) = some s₀ →
      ∃ pre post, l = pre ++ s₀ :: post ∧
        (∀ t ∈ pre, (t.student_id == student_id) = false) ∧
        updateFirst student_id f l = pre ++ f s₀ :: post := by
  intro l
  induction l with
  | nil => intro s₀ h; cases h
  | cons s rest ih =>
    intro s₀ h
    by_cases hs : (s.student_id == student_id) = true
    · simp only [List.find?, hs] at h
      obtain rfl := Option.some.inj h
      exact ⟨[], rest, by simp, by simp, by simp [updateFirst, hs]⟩
    · have hs' : (s.student_id == student_id) = false := by simpa using hs
      simp only [List.find?, hs'] at h
      obtain ⟨pre, post, hl, hpre, hupd⟩ := ih s₀ h
      refine ⟨s :: pre, post, by simp [hl], ?_, ?_⟩
      · intro t ht
        rcases List.mem_cons.mp ht with rfl | ht
        · simpa using hs
        · exact hpre t ht
      · simp [updateFirst, hs, hupd]

lemma verify_face_matched_dict (dist : Emb → Emb → ℚ) (threshold : ℚ) (e : Emb)
    (store : List Student) (b : MatchInfo) (all : List MatchInfo)
    (hA : (get_all_embeddings store).isEmpty = false)
    (hL : verifyLoop dist e (get_all_embeddings store) none [] = .ok (some b, all))
    (hb : b.distance ≤ threshold) :
    verify_face dist threshold (.ok e) store =
      { success := true, matched := some true, student := some b,
        confidence := some (1 - b.distance), distance := some b.distance,
        all_matches := some ((sortByDistance all).take 5) } := by
  unfold verify_face
  simp [hA, hL, hb]

lemma verify_face_notMatched_dict (dist : Emb → Emb → ℚ) (threshold : ℚ) (e : Emb)
    (store : List Student) (b : MatchInfo) (all : List MatchInfo)
    (hA : (get_all_embeddings store).isEmpty = false)
    (hL : verifyLoop dist e (get_all_embeddings store) none [] = .ok (some b, all))
    (hb : ¬ b.distance ≤ threshold) :
    verify_face dist threshold (.ok e) store =
      { success := true, matched := some false, best_match := some (some b),
        confidence := some (1 - b.distance), distance := some b.distance,
        all_matches := some ((sortByDistance all).take 5),
        message := some "No confident match found" } := by
  unfold verify_face
  simp [hA, hL, hb]

lemma bestOf_verify (dist : Emb → Emb → ℚ) (threshold : ℚ) (e : Emb)
    (store : List Student) (b : MatchInfo) (all : List MatchInfo)
    (hA : (get_all_embeddings store).isEmpty = false)
    (hL : verifyLoop dist e (get_all_embeddings store) none [] = .ok (some b, all)) :
    bestOf (verify_face dist threshold (.ok e) store) = some b := by
  by_cases hb : b.distance ≤ threshold
  · rw [verify_face_matched_dict dist threshold e store b all hA hL hb]
    rfl
  · rw [verify_face_notMatched_dict dist threshold e store b all hA hL hb]
    rfl

/-- Case analysis over the result dictionaries `verify_face` can produce:
an exception dict, the empty-collection dict, the matched dict, the
not-matched dict, or the (unreachable) not-matched dict with no best. -/
lemma verify_face_shapes (dist : Emb → Emb → ℚ) (threshold : ℚ)
    (extractRes : Except String Emb) (store : List Student) :
    (∃ msg, verify_face dist threshold extractRes store =
        { success := false, error := some msg }) ∨
    verify_face dist threshold extractRes store =
        { success := true, matched := some false,
          error := some "No students registered in the system" } ∨
    (∃ b ranked, b.distance ≤ threshold ∧
      verify_face dist threshold extractRes store =
        { success := true, matched := some true, student := some b,
          confidence := some (1 - b.distance), distance := some b.distance,
          all_matches := some ranked }) ∨
    (∃ b ranked, ¬ b.distance ≤ threshold ∧
      verify_face dist threshold extractRes store =
        { success := true, matched := some false, best_match := some (some b),
          confidence := some (1 - b.distance), distance := some b.distance,
          all_matches := some ranked,
          message := some "No confident match found" }) ∨
    (∃ ranked, verify_face dist threshold extractRes store =
        { success := true, matched := some false, best_match := some none,
          all_matches := some ranked,
          message := some "No confident match found" }) := by
  cases extractRes with
  | error e => exact Or.inl ⟨e, rfl⟩
  | ok input =>
    by_cases hA : (get_all_embeddings store).isEmpty
    · refine Or.inr (Or.inl ?_)
      unfold verify_face
      simp [hA]
    · have hA' : (get_all_embeddings store).isEmpty = false := by simpa using hA
      cases hL : verifyLoop dist input (get_all_embeddings store) none [] with
      | error msg =>
        refine Or.inl ⟨msg, ?_⟩
        unfold verify_face
        simp [hA', hL]
      | ok p =>
        obtain ⟨best, all⟩ := p
        cases best with
        | none =>
          refine Or.inr (Or.inr (Or.inr (Or.inr ⟨(sortByDistance all).take 5, ?_⟩)))
          unfold verify_face
          simp [hA', hL]
        | some b =>
          by_cases hb : b.distance ≤ threshold
          · exact Or.inr (Or.inr (Or.inl ⟨b, (sortByDistance all).take 5, hb,
              verify_face_matched_dict dist threshold input store b all hA' hL hb⟩))
          · exact Or.inr (Or.inr (Or.inr (Or.inl ⟨b, (sortByDistance all).take 5, hb,
              verify_face_notMatched_dict dist threshold input store b all hA' hL hb⟩)))

lemma processImages_length (extract : String → Except String Emb) :
    ∀ paths : List String,
      (processImages extract paths).1.length + (processImages extract paths).2.length
        = paths.length := by
  intro paths
  induction paths with
  | nil => rfl
  | cons p rest ih =>
    cases hp : extract p with
    | ok emb =>
      simp only [processImages, hp, List.length_cons]
      omega
    | error msg =>
      simp only [processImages, hp, List.length_cons]
      omega

/-! ## Claim theorems -/

/-- C3 (code_bug): the spec requires `cosine_distance` to fail as
`DegenerateInput` (or return `+∞`) when either input has zero norm, but the
source computes `1 - dot / (norm * norm)` with no guard.  At the failing
input `emb1 = [0, 0]`, `emb2 = [1, 0]` the divisor of the division the code
performs is zero (while the second vector is not degenerate and the numerator
is also zero, so numpy silently yields `nan` for `0.0/0.0`). -/
theorem C3_cosine_distance_divides_by_zero :
    cosineDivisorSq [(0 : ℚ), 0] [1, 0] = 0 ∧
    normSq [(1 : ℚ), 0] ≠ 0 ∧
    dot [(0 : ℚ), 0] [1, 0] = 0 := by
  refine ⟨?_, ?_, ?_⟩ <;> norm_num [cosineDivisorSq, normSq, dot]

/-- C6: registration's per-image loop attempts every image: an extraction
failure on one image never aborts the rest; successes are collected in list
order, failures are accumulated with their causes, their counts add up to the
number of input images, and the failures are reported alongside the result
(in both the insufficient-embeddings failure and the success dict). -/
theorem C6_extraction_failures_accumulated
    (extract : String → Except String Emb) (paths : List String) :
    processImages extract paths =
      (paths.filterMap (fun p => (extract p).toOption),
       paths.filterMap (fun p =>
          match extract p with
          | .ok _ => none
          | .error msg => some (p, msg))) ∧
    (processImages extract paths).1.length + (processImages extract paths).2.length
        = paths.length ∧
    (∀ (store : List Student) (name student_id : String),
      name ≠ "" → student_id ≠ "" → paths ≠ [] →
      get_student_by_id store student_id = none →
      (register_student extract store name student_id paths).1.failed_images =
        some (processImages extract paths).2) := by
  refine ⟨processImages_spec extract paths, processImages_length extract paths, ?_⟩
  intro store name student_id hname hsid hpaths hfresh
  unfold register_student
  simp only [hname, hsid, hpaths, hfresh, if_false, or_self, ite_false]
  by_cases h3 : (processImages extract paths).1.length < 3
  · simp [h3]
  · simp [h3]

/-- C5: registering an `identity_id` that already exists — whether the prior
identity is active or soft-deleted, since `get_student_by_id` applies no
`is_active` filter — fails with the conflict dict, leaves the store
unchanged, and does so before any image is processed (the outcome does not
depend on the extractor at all). -/
theorem C5_register_duplicate_conflict
    (extract : String → Except String Emb) (store : List Student)
    (name student_id : String) (paths : List String) (s₀ : Student)
    (hname : name ≠ "") (hsid : student_id ≠ "") (hpaths : paths ≠ [])
    (hdup : get_student_by_id store student_id = some s₀) :
    register_student extract store name student_id paths =
      ({ success := false,
         error := some ("Student ID " ++ student_id ++ " already exists") }, store) ∧
    ∀ extract2 : String → Except String Emb,
      register_student extract2 store name student_id paths =
        register_student extract store name student_id paths := by
  have h : ∀ ex : String → Except String Emb,
      register_student ex store name student_id paths =
        ({ success := false,
           error := some ("Student ID " ++ student_id ++ " already exists") }, store) := by
    intro ex
    unfold register_student
    simp [hname, hsid, hpaths, hdup]
  exact ⟨h extract, fun ex2 => (h ex2).trans (h extract).symm⟩

/-- C4: with valid inputs and a fresh `student_id`, registration fails when
fewer than 3 embeddings were successfully extracted — reporting the
successful count (in the error message) and the per-image failure causes,
and leaving the store unchanged — and succeeds with 3 or more, persisting
exactly the successfully extracted embeddings. -/
theorem C4_register_minimum_three
    (extract : String → Except String Emb) (store : List Student)
    (name student_id : String) (paths : List String)
    (hname : name ≠ "") (hsid : student_id ≠ "") (hpaths : paths ≠ [])
    (hfresh : get_student_by_id store student_id = none) :
    ((processImages extract paths).1.length < 3 →
      register_student extract store name student_id paths =
        ({ success := false,
           error := some ("Only " ++ toString (processImages extract paths).1.length ++
             " images processed successfully. Need at least 3."),
           failed_images := some (processImages extract paths).2 }, store)) ∧
    (3 ≤ (processImages extract paths).1.length →
      register_student extract store name student_id paths =
        ({ success := true,
           student_id := some student_id,
           name := some name,
           db_id := some (toString store.length),
           total_images := some paths.length,
           successful_embeddings := some (processImages extract paths).1.length,
           failed_images := some (processImages extract paths).2,
           message := some ("Student registered with " ++
             toString (processImages extract paths).1.length ++ " face embeddings") },
         store ++ [{ name := name, student_id := student_id,
                     embeddings := (processImages extract paths).1,
                     image_count := (processImages extract paths).1.length,
                     image_paths := paths, is_active := true }])) := by
  constructor
  · intro h3
    unfold register_student
    simp [hname, hsid, hpaths, hfresh, h3]
  · intro h3
    unfold register_student add_student
    simp [hname, hsid, hpaths, hfresh, Nat.not_lt.mpr h3]

/-- C8: augmenting an existing identity with N new successfully-extracted
embeddings (N ≥ 1) reports a modification, appends the new embeddings after
the prior ones (which are preserved unchanged, in order), increases the
stored embedding count by exactly N, and leaves every other student
untouched. -/
theorem C8_augment_appends_embeddings
    (store : List Student) (student_id : String)
    (new_embeddings : List Emb) (new_image_paths : List String) (s₀ : Student)
    (hfind : store.find? (fun s => s.student_id == student_id) = some s₀)
    (hN : new_embeddings ≠ []) :
    (update_student_embeddings store student_id new_embeddings new_image_paths).1
        = true ∧
    ∃ pre post, store = pre ++ s₀ :: post ∧
      (∀ t ∈ pre, (t.student_id == student_id) = false) ∧
      (update_student_embeddings store student_id new_embeddings new_image_paths).2 =
        pre ++ ({ s₀ with
          embeddings := s₀.embeddings ++ new_embeddings,
          image_count := (s₀.embeddings ++ new_embeddings).length,
          image_paths := s₀.image_paths ++ new_image_paths } : Student) :: post ∧
      (s₀.embeddings ++ new_embeddings).length =
        s₀.embeddings.length + new_embeddings.length ∧
      (s₀.embeddings ++ new_embeddings).take s₀.embeddings.length = s₀.embeddings := by
  constructor
  · unfold update_student_embeddings
    rw [hfind]
    simp only [ne_eq, decide_eq_true_eq]
    intro hEq
    have hlen := congrArg (fun s => s.embeddings.length) hEq
    simp only [List.length_append] at hlen
    have h0 : new_embeddings.length = 0 := by omega
    exact hN (List.length_eq_zero.mp h0)
  · obtain ⟨pre, post, hl, hpre, hupd⟩ :=
      find_update_decomp student_id
        (fun _ => { s₀ with
          embeddings := s₀.embeddings ++ new_embeddings,
          image_count := (s₀.embeddings ++ new_embeddings).length,
          image_paths := s₀.image_paths ++ new_image_paths })
        store s₀ hfind
    refine ⟨pre, post, hl, hpre, ?_, by simp, List.take_left _ _⟩
    unfold update_student_embeddings
    rw [hfind]
    simpa using hupd

/-- C10: if any active student has an empty stored-embedding list, the
`min()` over the empty per-student distance list raises, and `verify_face`
returns the `success = false` exception dict rather than a match/no-match
decision; when every active student has at least one embedding, the result
is a normal `success = true` outcome. -/
theorem C10_empty_embeddings_failure (dist : Emb → Emb → ℚ) (threshold : ℚ)
    (e : Emb) (store : List Student) :
    ((∃ s ∈ get_all_embeddings store, s.embeddings = []) →
      verify_face dist threshold (.ok e) store =
        { success := false, error := some "min() arg is an empty sequence" }) ∧
    ((∀ s ∈ get_all_embeddings store, s.embeddings ≠ []) →
      (verify_face dist threshold (.ok e) store).success = true) := by
  constructor
  · rintro ⟨s, hs, hse⟩
    have hA : (get_all_embeddings store).isEmpty = false := by
      rcases hA : get_all_embeddings store with _ | ⟨t, rest⟩
      · rw [hA] at hs; cases hs
      · rfl
    have hL := verifyLoop_err dist e (get_all_embeddings store) none [] ⟨s, hs, hse⟩
    unfold verify_face
    simp [hA, hL]
  · intro hemb
    by_cases hA : (get_all_embeddings store).isEmpty
    · unfold verify_face
      simp [hA]
    · have hA' : (get_all_embeddings store).isEmpty = false := by simpa using hA
      have hL := verifyLoop_ok dist e (get_all_embeddings store) none [] hemb
      cases hbest : runBest none ((get_all_embeddings store).map (candOf dist e)) with
      | none =>
        rw [hbest] at hL
        unfold verify_face
        simp [hA', hL]
      | some b =>
        rw [hbest] at hL
        by_cases hb : b.distance ≤ threshold
        · rw [verify_face_matched_dict dist threshold e store b _ hA' hL hb]
        · rw [verify_face_notMatched_dict dist threshold e store b _ hA' hL hb]

/-- C2: when the best aggregate distance equals the configured threshold
(default 0.6 = 3/5), the `<=` comparison classifies the probe as matched,
carrying the best-match candidate, its distance, and confidence
`1 - best_distance`. -/
theorem C2_threshold_boundary_inclusive (dist : Emb → Emb → ℚ) (e : Emb)
    (store : List Student) (b : MatchInfo)
    (hemb : ∀ s ∈ get_all_embeddings store, s.embeddings ≠ [])
    (hb : runBest none ((get_all_embeddings store).map (candOf dist e)) = some b)
    (hd : b.distance = confidence_threshold) :
    (verify_face dist confidence_threshold (.ok e) store).matched = some true ∧
    (verify_face dist confidence_threshold (.ok e) store).student = some b ∧
    (verify_face dist confidence_threshold (.ok e) store).confidence =
      some (1 - b.distance) ∧
    (verify_face dist confidence_threshold (.ok e) store).distance =
      some b.distance := by
  have hA : (get_all_embeddings store).isEmpty = false := by
    rcases h : get_all_embeddings store with _ | _
    · rw [h] at hb
      simp [runBest] at hb
    · rfl
  have hL := verifyLoop_ok dist e (get_all_embeddings store) none [] hemb
  rw [hb] at hL
  rw [verify_face_matched_dict dist confidence_threshold e store b _ hA hL
    (le_of_eq hd)]
  exact ⟨rfl, rfl, rfl, rfl⟩

/-- C1: on a nonempty active-student list in which every student has at
least one stored embedding, `verify_face` selects as best match the
candidate of the first student attaining the globally minimal aggregate
(minimum-over-embeddings) distance: the selected candidate's distance is a
lower bound for all students, and strictly below the aggregate distance of
every student seen earlier (strict `<` update means the first-seen identity
wins ties). -/
theorem C1_verify_best_is_first_argmin (dist : Emb → Emb → ℚ) (threshold : ℚ)
    (e : Emb) (store : List Student)
    (hne : get_all_embeddings store ≠ [])
    (hemb : ∀ s ∈ get_all_embeddings store, s.embeddings ≠ []) :
    ∃ b, bestOf (verify_face dist threshold (.ok e) store) = some b ∧
      ∃ i, ∃ h : i < (get_all_embeddings store).length,
        b = candOf dist e ((get_all_embeddings store).get ⟨i, h⟩) ∧
        (∀ s ∈ get_all_embeddings store, b.distance ≤ aggDist dist e s) ∧
        (∀ s ∈ (get_all_embeddings store).take i,
          b.distance < aggDist dist e s) := by
  obtain ⟨s, rest, hA⟩ : ∃ s rest, get_all_embeddings store = s :: rest := by
    rcases h : get_all_embeddings store with _ | ⟨s, rest⟩
    · exact absurd h hne
    · exact ⟨s, rest, rfl⟩
  have hAe : (get_all_embeddings store).isEmpty = false := by rw [hA]; rfl
  obtain ⟨r, hr, hspec⟩ :=
    runBest_some_spec (rest.map (candOf dist e)) (candOf dist e s)
  have hrun : runBest none ((get_all_embeddings store).map (candOf dist e))
      = some r := by
    rw [hA]
    simpa [runBest, List.foldl, betterOf] using hr
  have hL := verifyLoop_ok dist e (get_all_embeddings store) none [] hemb
  rw [hrun] at hL
  rw [hA]
  refine ⟨r, bestOf_verify dist threshold e store r _ hAe hL, ?_⟩
  rcases hspec with ⟨rfl, hmin⟩ | ⟨i, hi, hget, hlt, hmin, hfirst⟩
  · refine ⟨0, by simp, rfl, ?_, by simp⟩
    intro t ht
    rcases List.mem_cons.mp ht with rfl | ht
    · exact le_refl _
    · exact hmin (candOf dist e t) (List.mem_map_of_mem _ ht)
  · have hi' : i < rest.length := by simpa using hi
    have hget' : r = candOf dist e (rest.get ⟨i, hi'⟩) := by
      rw [hget]
      simp [List.get_eq_getElem, List.getElem_map]
    refine ⟨i + 1, by simpa using Nat.succ_lt_succ hi', hget', ?_, ?_⟩
    · intro t ht
      rcases List.mem_cons.mp ht with rfl | ht
      · exact le_of_lt hlt
      · exact hmin (candOf dist e t) (List.mem_map_of_mem _ ht)
    · intro t ht
      rw [List.take_succ_cons] at ht
      rcases List.mem_cons.mp ht with rfl | ht
      · exact hlt
      · refine hfirst (candOf dist e t) ?_
        rw [← List.map_take]
        exact List.mem_map_of_mem _ ht

/-- C9 counterexample: the empty-collection outcome of `verify_face` carries
`success = true` together with a populated `error` key, so the claim that
verify never returns a success flag together with an error message fails on
the code. -/
theorem C9_success_flag_with_error_counterexample :
    (verify_face (fun _ _ => 0) confidence_threshold (.ok [1]) []).success
        = true ∧
    (verify_face (fun _ _ => 0) confidence_threshold (.ok [1]) []).error
        ≠ none := by
  exact ⟨rfl, by decide⟩

/-- C9 (amended): `verify_face` on an empty active set returns the immediate
no-students outcome with `success = true` and `matched = false` — a normal
non-error result by the success flag, though it reports its explanation in
the `error` field; that no-students dict is the only success result whose
`error` key is populated; failure results never carry a `matched` key, so
the not-matched outcome (`matched = some false`) always has `success = true`
and is distinct from every failure. -/
theorem C9_not_matched_non_error_amended (dist : Emb → Emb → ℚ) (threshold : ℚ)
    (extractRes : Except String Emb) (store : List Student) :
    ((∃ e, extractRes = .ok e) → get_all_embeddings store = [] →
      verify_face dist threshold extractRes store =
        { success := true, matched := some false,
          error := some "No students registered in the system" }) ∧
    ((verify_face dist threshold extractRes store).success = true →
      (verify_face dist threshold extractRes store).error ≠ none →
      verify_face dist threshold extractRes store =
        { success := true, matched := some false,
          error := some "No students registered in the system" }) ∧
    ((verify_face dist threshold extractRes store).success = false →
      (verify_face dist threshold extractRes store).matched = none) ∧
    ((verify_face dist threshold extractRes store).matched = some false →
      (verify_face dist threshold extractRes store).success = true) := by
  refine ⟨?_, ?_⟩
  · rintro ⟨e, rfl⟩ hstore
    unfold verify_face
    rw [hstore]
    rfl
  · rcases verify_face_shapes dist threshold extractRes store with
      ⟨msg, hEq⟩ | hEq | ⟨b, rk, hb, hEq⟩ | ⟨b, rk, hb, hEq⟩ | ⟨rk, hEq⟩ <;>
      rw [hEq] <;> refine ⟨?_, ?_, ?_⟩ <;> simp

/-- C7: `mark_attendance` composes `verify_face` with attendance recording
atomically from the caller's view: on a matched probe with a working store it
appends exactly one attendance record and returns its handle; on a
non-matched probe it appends nothing and returns a non-error no-match
outcome; and when the probe matched but the persistence call raises, the
result is a `success = false` error dict — never a no-match report — and no
record is kept. -/
theorem C7_mark_attendance_atomic (dist : Emb → Emb → ℚ) (threshold : ℚ)
    (extractRes : Except String Emb) (store : List Student)
    (insertOk : Bool) (insertErr : String)
    (timestamp image_path : Option String) (att : List AttRecord) :
    ((verify_face dist threshold extractRes store).matched = some true →
      insertOk = true →
      (mark_attendance dist threshold extractRes store insertOk insertErr
        timestamp image_path att).1.success = true ∧
      (mark_attendance dist threshold extractRes store insertOk insertErr
        timestamp image_path att).1.attendance_marked = some true ∧
      (mark_attendance dist threshold extractRes store insertOk insertErr
        timestamp image_path att).1.attendance_id = some (toString att.length) ∧
      ∃ a, (mark_attendance dist threshold extractRes store insertOk insertErr
        timestamp image_path att).2 = att ++ [a]) ∧
    ((verify_face dist threshold extractRes store).success = true →
      (verify_face dist threshold extractRes store).matched = some false →
      (mark_attendance dist threshold extractRes store insertOk insertErr
        timestamp image_path att).1.success = true ∧
      (mark_attendance dist threshold extractRes store insertOk insertErr
        timestamp image_path att).1.attendance_marked = some false ∧
      (mark_attendance dist threshold extractRes store insertOk insertErr
        timestamp image_path att).1.error = none ∧
      (mark_attendance dist threshold extractRes store insertOk insertErr
        timestamp image_path att).2 = att) ∧
    ((verify_face dist threshold extractRes store).matched = some true →
      insertOk = false →
      (mark_attendance dist threshold extractRes store insertOk insertErr
        timestamp image_path att).1.success = false ∧
      (mark_attendance dist threshold extractRes store insertOk insertErr
        timestamp image_path att).1.error = some insertErr ∧
      (mark_attendance dist threshold extractRes store insertOk insertErr
        timestamp image_path att).1.attendance_marked = none ∧
      (mark_attendance dist threshold extractRes store insertOk insertErr
        timestamp image_path att).2 = att) := by
  rcases verify_face_shapes dist threshold extractRes store with
    ⟨msg, hEq⟩ | hEq | ⟨b, rk, hb, hEq⟩ | ⟨b, rk, hb, hEq⟩ | ⟨rk, hEq⟩
  · refine ⟨?_, ?_, ?_⟩ <;> intro h1 h2 <;> rw [hEq] at h1 <;> simp at h1
  · refine ⟨?_, ?_, ?_⟩
    · intro h1 h2
      rw [hEq] at h1
      simp at h1
    · intro h1 h2
      unfold mark_attendance
      rw [hEq]
      simp
    · intro h1 h2
      rw [hEq] at h1
      simp at h1
  · refine ⟨?_, ?_, ?_⟩
    · intro h1 h2
      subst h2
      unfold mark_attendance
      rw [hEq]
      simp [record_attendance]
    · intro h1 h2
      rw [hEq] at h2
      simp at h2
    · intro h1 h2
      subst h2
      unfold mark_attendance
      rw [hEq]
      simp
  · refine ⟨?_, ?_, ?_⟩
    · intro h1 h2
      rw [hEq] at h1
      simp at h1
    · intro h1 h2
      unfold mark_attendance
      rw [hEq]
      simp
    · intro h1 h2
      rw [hEq] at h1
      simp at h1
  · refine ⟨?_, ?_, ?_⟩
    · intro h1 h2
      rw [hEq] at h1
      simp at h1
    · intro h1 h2
      unfold mark_attendance
      rw [hEq]
      simp
    · intro h1 h2
      rw [hEq] at h1
      simp at h1

/-! ## Witnesses -/

theorem C1_verify_best_is_first_argmin_witness :
    ∃ b, bestOf (verify_face (fun _ _ => 1) confidence_threshold (.ok [1])
        [⟨"Alice", "s1", [[1]], 1, [], true⟩, ⟨"Bob", "s2", [[2]], 1, [], true⟩])
      = some b ∧
      ∃ i, ∃ h : i < (get_all_embeddings
        [⟨"Alice", "s1", [[1]], 1, [], true⟩,
         ⟨"Bob", "s2", [[2]], 1, [], true⟩]).length,
        b = candOf (fun _ _ => 1) [1] ((get_all_embeddings
          [⟨"Alice", "s1", [[1]], 1, [], true⟩,
           ⟨"Bob", "s2", [[2]], 1, [], true⟩]).get ⟨i, h⟩) ∧
        (∀ s ∈ get_all_embeddings
          [⟨"Alice", "s1", [[1]], 1, [], true⟩,
           ⟨"Bob", "s2", [[2]], 1, [], true⟩],
          b.distance ≤ aggDist (fun _ _ => 1) [1] s) ∧
        (∀ s ∈ (get_all_embeddings
          [⟨"Alice", "s1", [[1]], 1, [], true⟩,
           ⟨"Bob", "s2", [[2]], 1, [], true⟩]).take i,
          b.distance < aggDist (fun _ _ => 1) [1] s) :=
  C1_verify_best_is_first_argmin (fun _ _ => 1) confidence_threshold [1]
    [⟨"Alice", "s1", [[1]], 1, [], true⟩, ⟨"Bob", "s2", [[2]], 1, [], true⟩]
    (by decide) (by decide)

theorem C2_threshold_boundary_inclusive_witness :
    (verify_face (fun _ _ => confidence_threshold) confidence_threshold (.ok [1])
        [⟨"Alice", "s1", [[1]], 1, [], true⟩]).matched = some true ∧
    (verify_face (fun _ _ => confidence_threshold) confidence_threshold (.ok [1])
        [⟨"Alice", "s1", [[1]], 1, [], true⟩]).student =
      some ⟨"s1", "Alice", confidence_threshold⟩ ∧
    (verify_face (fun _ _ => confidence_threshold) confidence_threshold (.ok [1])
        [⟨"Alice", "s1", [[1]], 1, [], true⟩]).confidence =
      some (1 - (⟨"s1", "Alice", confidence_threshold⟩ : MatchInfo).distance) ∧
    (verify_face (fun _ _ => confidence_threshold) confidence_threshold (.ok [1])
        [⟨"Alice", "s1", [[1]], 1, [], true⟩]).distance =
      some (⟨"s1", "Alice", confidence_threshold⟩ : MatchInfo).distance :=
  C2_threshold_boundary_inclusive (fun _ _ => confidence_threshold) [1]
    [⟨"Alice", "s1", [[1]], 1, [], true⟩] ⟨"s1", "Alice", confidence_threshold⟩
    (by decide) (by decide) rfl

theorem C4_register_minimum_three_witness :
    register_student
        (fun p => if p = "bad" then .error "no face" else .ok [(1 : ℚ)])
        [] "Alice" "s1" ["a", "b", "bad"] =
      ({ success := false,
         error := some "Only 2 images processed successfully. Need at least 3.",
         failed_images := some [("bad", "no face")] }, []) ∧
    register_student
        (fun p => if p = "bad" then .error "no face" else .ok [(1 : ℚ)])
        [] "Alice" "s1" ["a", "b", "c", "bad"] =
      ({ success := true, student_id := some "s1", name := some "Alice",
         db_id := some "0", total_images := some 4,
         successful_embeddings := some 3,
         failed_images := some [("bad", "no face")],
         message := some "Student registered with 3 face embeddings" },
       [⟨"Alice", "s1", [[1], [1], [1]], 3, ["a", "b", "c", "bad"], true⟩]) :=
  ⟨(C4_register_minimum_three
      (fun p => if p = "bad" then .error "no face" else .ok [(1 : ℚ)])
      [] "Alice" "s1" ["a", "b", "bad"]
      (by decide) (by decide) (by decide) rfl).1 (by decide),
   (C4_register_minimum_three
      (fun p => if p = "bad" then .error "no face" else .ok [(1 : ℚ)])
      [] "Alice" "s1" ["a", "b", "c", "bad"]
      (by decide) (by decide) (by decide) rfl).2 (by decide)⟩

theorem C5_register_duplicate_conflict_witness :
    register_student (fun _ => .ok [(1 : ℚ)])
        [⟨"Carol", "s3", [[3]], 1, [], false⟩] "Alice" "s3" ["a"] =
      ({ success := false, error := some "Student ID s3 already exists" },
       [⟨"Carol", "s3", [[3]], 1, [], false⟩]) ∧
    ∀ extract2 : String → Except String Emb,
      register_student extract2
          [⟨"Carol", "s3", [[3]], 1, [], false⟩] "Alice" "s3" ["a"] =
        register_student (fun _ => .ok [(1 : ℚ)])
          [⟨"Carol", "s3", [[3]], 1, [], false⟩] "Alice" "s3" ["a"] :=
  C5_register_duplicate_conflict (fun _ => .ok [(1 : ℚ)])
    [⟨"Carol", "s3", [[3]], 1, [], false⟩] "Alice" "s3" ["a"]
    ⟨"Carol", "s3", [[3]], 1, [], false⟩
    (by decide) (by decide) (by decide) (by decide)

theorem C6_extraction_failures_accumulated_witness :
    (register_student
        (fun p => if p = "bad" then .error "no face" else .ok [(1 : ℚ)])
        [] "Alice" "s1" ["a", "bad"]).1.failed_images =
      some (processImages
        (fun p => if p = "bad" then .error "no face" else .ok [(1 : ℚ)])
        ["a", "bad"]).2 ∧
    (processImages
        (fun p => if p = "bad" then .error "no face" else .ok [(1 : ℚ)])
        ["a", "bad"]).1.length +
      (processImages
        (fun p => if p = "bad" then .error "no face" else .ok [(1 : ℚ)])
        ["a", "bad"]).2.length = 2 :=
  ⟨(C6_extraction_failures_accumulated
      (fun p => if p = "bad" then .error "no face" else .ok [(1 : ℚ)])
      ["a", "bad"]).2.2 [] "Alice" "s1" (by decide) (by decide) (by decide) rfl,
   (C6_extraction_failures_accumulated
      (fun p => if p = "bad" then .error "no face" else .ok [(1 : ℚ)])
      ["a", "bad"]).2.1⟩

theorem C7_mark_attendance_atomic_witness :
    ((mark_attendance (fun _ _ => 0) confidence_threshold (.ok [1])
        [⟨"Alice", "s1", [[1]], 1, [], true⟩] true "db down"
        (some "2024-05-01T08:00:00") none []).1.success = true ∧
      (mark_attendance (fun _ _ => 0) confidence_threshold (.ok [1])
        [⟨"Alice", "s1", [[1]], 1, [], true⟩] true "db down"
        (some "2024-05-01T08:00:00") none []).1.attendance_marked = some true ∧
      (mark_attendance (fun _ _ => 0) confidence_threshold (.ok [1])
        [⟨"Alice", "s1", [[1]], 1, [], true⟩] true "db down"
        (some "2024-05-01T08:00:00") none []).1.attendance_id =
          some (toString ([] : List AttRecord).length) ∧
      ∃ a, (mark_attendance (fun _ _ => 0) confidence_threshold (.ok [1])
        [⟨"Alice", "s1", [[1]], 1, [], true⟩] true "db down"
        (some "2024-05-01T08:00:00") none []).2 = [] ++ [a]) ∧
    ((mark_attendance (fun _ _ => 1) confidence_threshold (.ok [1])
        [⟨"Alice", "s1", [[1]], 1, [], true⟩] true "db down"
        (some "2024-05-01T08:00:00") none []).1.success = true ∧
      (mark_attendance (fun _ _ => 1) confidence_threshold (.ok [1])
        [⟨"Alice", "s1", [[1]], 1, [], true⟩] true "db down"
        (some "2024-05-01T08:00:00") none []).1.attendance_marked = some false ∧
      (mark_attendance (fun _ _ => 1) confidence_threshold (.ok [1])
        [⟨"Alice", "s1", [[1]], 1, [], true⟩] true "db down"
        (some "2024-05-01T08:00:00") none []).1.error = none ∧
      (mark_attendance (fun _ _ => 1) confidence_threshold (.ok [1])
        [⟨"Alice", "s1", [[1]], 1, [], true⟩] true "db down"
        (some "2024-05-01T08:00:00") none []).2 = []) ∧
    ((mark_attendance (fun _ _ => 0) confidence_threshold (.ok [1])
        [⟨"Alice", "s1", [[1]], 1, [], true⟩] false "db down"
        (some "2024-05-01T08:00:00") none []).1.success = false ∧
      (mark_attendance (fun _ _ => 0) confidence_threshold (.ok [1])
        [⟨"Alice", "s1", [[1]], 1, [], true⟩] false "db down"
        (some "2024-05-01T08:00:00") none []).1.error = some "db down" ∧
      (mark_attendance (fun _ _ => 0) confidence_threshold (.ok [1])
        [⟨"Alice", "s1", [[1]], 1, [], true⟩] false "db down"
        (some "2024-05-01T08:00:00") none []).1.attendance_marked = none ∧
      (mark_attendance (fun _ _ => 0) confidence_threshold (.ok [1])
        [⟨"Alice", "s1", [[1]], 1, [], true⟩] false "db down"
        (some "2024-05-01T08:00:00") none []).2 = []) :=
  ⟨(C7_mark_attendance_atomic (fun _ _ => 0) confidence_threshold (.ok [1])
      [⟨"Alice", "s1", [[1]], 1, [], true⟩] true "db down"
      (some "2024-05-01T08:00:00") none []).1 (by decide) rfl,
   (C7_mark_attendance_atomic (fun _ _ => 1) confidence_threshold (.ok [1])
      [⟨"Alice", "s1", [[1]], 1, [], true⟩] true "db down"
      (some "2024-05-01T08:00:00") none []).2.1 (by decide) (by decide),
   (C7_mark_attendance_atomic (fun _ _ => 0) confidence_threshold (.ok [1])
      [⟨"Alice", "s1", [[1]], 1, [], true⟩] false "db down"
      (some "2024-05-01T08:00:00") none []).2.2 (by decide) rfl⟩

theorem C8_augment_appends_embeddings_witness :
    (update_student_embeddings
        [⟨"Bob", "s2", [[2]], 1, [], true⟩, ⟨"Alice", "s1", [[1]], 1, [], true⟩]
        "s1" [[9]] ["p"]).1 = true ∧
    ∃ pre post,
      [⟨"Bob", "s2", [[2]], 1, [], true⟩, ⟨"Alice", "s1", [[1]], 1, [], true⟩] =
        pre ++ (⟨"Alice", "s1", [[1]], 1, [], true⟩ : Student) :: post ∧
      (∀ t ∈ pre, (t.student_id == "s1") = false) ∧
      (update_student_embeddings
        [⟨"Bob", "s2", [[2]], 1, [], true⟩, ⟨"Alice", "s1", [[1]], 1, [], true⟩]
        "s1" [[9]] ["p"]).2 =
        pre ++ ({ (⟨"Alice", "s1", [[1]], 1, [], true⟩ : Student) with
          embeddings := (⟨"Alice", "s1", [[1]], 1, [], true⟩ : Student).embeddings
            ++ [[9]],
          image_count := ((⟨"Alice", "s1", [[1]], 1, [], true⟩ : Student).embeddings
            ++ [[9]]).length,
          image_paths := (⟨"Alice", "s1", [[1]], 1, [], true⟩ : Student).image_paths
            ++ ["p"] } : Student) :: post ∧
      ((⟨"Alice", "s1", [[1]], 1, [], true⟩ : Student).embeddings ++ [[9]]).length =
        (⟨"Alice", "s1", [[1]], 1, [], true⟩ : Student).embeddings.length +
          ([[9]] : List Emb).length ∧
      ((⟨"Alice", "s1", [[1]], 1, [], true⟩ : Student).embeddings ++ [[9]]).take
          (⟨"Alice", "s1", [[1]], 1, [], true⟩ : Student).embeddings.length =
        (⟨"Alice", "s1", [[1]], 1, [], true⟩ : Student).embeddings :=
  C8_augment_appends_embeddings
    [⟨"Bob", "s2", [[2]], 1, [], true⟩, ⟨"Alice", "s1", [[1]], 1, [], true⟩]
    "s1" [[9]] ["p"] ⟨"Alice", "s1", [[1]], 1, [], true⟩ (by decide) (by decide)

theorem C9_not_matched_non_error_amended_witness :
    verify_face (fun _ _ => (0 : ℚ)) confidence_threshold (.ok [1]) [] =
      { success := true, matched := some false,
        error := some "No students registered in the system" } ∧
    (verify_face (fun _ _ => (0 : ℚ)) confidence_threshold
        (.error "no face") []).matched = none ∧
    (verify_face (fun _ _ => (1 : ℚ)) confidence_threshold (.ok [1])
        [⟨"Alice", "s1", [[1]], 1, [], true⟩]).success = true :=
  ⟨(C9_not_matched_non_error_amended (fun _ _ => (0 : ℚ)) confidence_threshold
      (.ok [1]) []).1 ⟨[1], rfl⟩ rfl,
   (C9_not_matched_non_error_amended (fun _ _ => (0 : ℚ)) confidence_threshold
      (.error "no face") []).2.2.1 rfl,
   (C9_not_matched_non_error_amended (fun _ _ => (1 : ℚ)) confidence_threshold
      (.ok [1]) [⟨"Alice", "s1", [[1]], 1, [], true⟩]).2.2.2 (by decide)⟩

theorem C10_empty_embeddings_failure_witness :
    verify_face (fun _ _ => 0) confidence_threshold (.ok [1])
        [⟨"Empty", "s0", [], 0, [], true⟩] =
      { success := false, error := some "min() arg is an empty sequence" } ∧
    (verify_face (fun _ _ => 0) confidence_threshold (.ok [1])
        [⟨"Alice", "s1", [[1]], 1, [], true⟩]).success = true :=
  ⟨(C10_empty_embeddings_failure (fun _ _ => 0) confidence_threshold [1]
      [⟨"Empty", "s0", [], 0, [], true⟩]).1 (by decide),
   (C10_empty_embeddings_failure (fun _ _ => 0) confidence_threshold [1]
      [⟨"Alice", "s1", [[1]], 1, [], true⟩]).2 (by decide)⟩

end FaceRecog
